import Mathlib

/-!
Shallow embedding of the school-records relationship layer of this repository.

Two parallel data-access implementations exist in the source and are embedded
separately, since the claims compare them:

* namespace `DBM` embeds `src/database_pyqt.py` (`DatabaseManager`).  Its
  `get_connection` never issues `PRAGMA foreign_keys = ON`, so SQLite foreign
  keys are NOT enforced on that path; methods report success as
  `cursor.rowcount > 0` after the last statement.
* namespace `Repo` embeds `src/utils.py` over `src/database.py` (`run`,
  `_connect`).  `_connect` enables foreign keys, so inserts and updates that
  violate a foreign key make `run` return `None`; otherwise `run` returns a
  cursor even when zero rows were affected, and the repository helpers report
  `ok is not None`.

Machine integers: SQLite stores the age as an arbitrary-precision integer for
the sizes at play; Python ints are unbounded, so ages are modelled as `Int`.
Tables are modelled as lists of rows; primary keys make at most one row per id
in reachable states, but the operations are defined on arbitrary states
exactly as the SQL statements act on them.
-/

namespace School

/-- ASCII part of the Python whitespace class used by `str.strip` and `\s`. -/
def pyIsSpace (c : Char) : Bool :=
  c == ' ' || c == '\t' || c == '\n' || c == '\r' || c == '\x0b' || c == '\x0c'

/-- `str.strip()` on the character list. -/
def pyStripList (cs : List Char) : List Char :=
  ((cs.dropWhile pyIsSpace).reverse.dropWhile pyIsSpace).reverse

/-- `str.strip()`. -/
def pyStrip (s : String) : String :=
  String.mk (pyStripList s.toList)

/-- Digit run to a natural number. -/
def digitsToNat (cs : List Char) : Nat :=
  cs.foldl (fun acc c => 10 * acc + (c.toNat - 48)) 0

/-- Python `int(s)` on a decimal string: strip, optional sign, then a
non-empty run of digits; `none` models the `ValueError` branch. -/
def pyIntOfString (s : String) : Option Int :=
  let cs := pyStripList s.toList
  let signDigits : Bool × List Char :=
    match cs with
    | '-' :: rest => (true, rest)
    | '+' :: rest => (false, rest)
    | rest => (false, rest)
  if signDigits.2.isEmpty then none
  else if signDigits.2.all Char.isDigit then
    some (if signDigits.1 then -(digitsToNat signDigits.2 : Int)
          else (digitsToNat signDigits.2 : Int))
  else none

/-- Row of the `students` table: `(student_id, name, age, email)`. -/
structure StudentRow where
  student_id : String
  name : String
  age : Int
  email : String
deriving Repr, DecidableEq

/-- Row of the `instructors` table: `(instructor_id, name, age, email)`. -/
structure InstructorRow where
  instructor_id : String
  name : String
  age : Int
  email : String
deriving Repr, DecidableEq

/-- Row of the `courses` table: `(course_id, course_name, instructor_id)`,
the instructor reference being nullable. -/
structure CourseRow where
  course_id : String
  course_name : String
  instructor_id : Option String
deriving Repr, DecidableEq

/-- The store: the four tables.  `regs` is the student-course relation,
called `registrations` in `database.py` and `student_courses` in
`database_pyqt.py`; both have `PRIMARY KEY (student_id, course_id)`. -/
structure DB where
  students : List StudentRow
  instructors : List InstructorRow
  courses : List CourseRow
  regs : List (String × String)
deriving Repr, DecidableEq

/-- `SELECT 1 FROM students WHERE student_id = ?` is non-empty. -/
def hasStudent (db : DB) (sid : String) : Bool :=
  db.students.any (fun s => s.student_id == sid)

/-- `SELECT 1 FROM instructors WHERE instructor_id = ?` is non-empty. -/
def hasInstructor (db : DB) (iid : String) : Bool :=
  db.instructors.any (fun i => i.instructor_id == iid)

/-- `SELECT 1 FROM courses WHERE course_id = ?` is non-empty. -/
def hasCourse (db : DB) (cid : String) : Bool :=
  db.courses.any (fun c => c.course_id == cid)

/-- The enrollment pair is present. -/
def hasReg (db : DB) (sid cid : String) : Bool :=
  db.regs.any (fun p => p == (sid, cid))

/-- A student row already uses this email (binary comparison, as the
`UNIQUE` column constraint compares). -/
def studentEmailUsed (db : DB) (em : String) : Bool :=
  db.students.any (fun s => s.email == em)

namespace DBM

/-- `DatabaseManager.add_student`: plain `INSERT`; `sqlite3.Error` on a
primary-key or unique-email conflict makes the method return `False`.
The pyqt schema has no CHECK constraint on the age. -/
def add_student (db : DB) (s : StudentRow) : Bool × DB :=
  if hasStudent db s.student_id || studentEmailUsed db s.email then (false, db)
  else (true, { db with students := db.students ++ [s] })

/-- `DatabaseManager.get_student` row lookup. -/
def get_student (db : DB) (sid : String) : Option StudentRow :=
  db.students.find? (fun s => s.student_id == sid)

/-- `DatabaseManager.register_student_in_course`:
`INSERT OR IGNORE INTO student_courses`, success reported as
`cursor.rowcount > 0`.  Foreign keys are not enabled on this connection, so
absent student or course ids are not checked. -/
def register_student_in_course (db : DB) (sid cid : String) : Bool × DB :=
  if hasReg db sid cid then (false, db)
  else (true, { db with regs := db.regs ++ [(sid, cid)] })

/-- `DatabaseManager.unregister_student_from_course`: `DELETE` of the pair,
success reported as `cursor.rowcount > 0`. -/
def unregister_student_from_course (db : DB) (sid cid : String) : Bool × DB :=
  if hasReg db sid cid then
    (true, { db with regs := db.regs.filter (fun p => !(p == (sid, cid))) })
  else (false, db)

/-- `DatabaseManager.delete_student`: first
`DELETE FROM student_courses WHERE student_id = ?`, then
`DELETE FROM students WHERE student_id = ?`, one commit; the returned flag is
the rowcount of the second delete. -/
def delete_student (db : DB) (sid : String) : Bool × DB :=
  (hasStudent db sid,
   { db with
       regs := db.regs.filter (fun p => !(p.1 == sid)),
       students := db.students.filter (fun s => !(s.student_id == sid)) })

/-- `DatabaseManager.delete_instructor`: first
`UPDATE courses SET instructor_id = NULL WHERE instructor_id = ?`, then
`DELETE FROM instructors WHERE instructor_id = ?`, one commit; the returned
flag is the rowcount of the delete. -/
def delete_instructor (db : DB) (iid : String) : Bool × DB :=
  (hasInstructor db iid,
   { db with
       courses := db.courses.map (fun c =>
         if c.instructor_id == some iid then { c with instructor_id := none } else c),
       instructors := db.instructors.filter (fun i => !(i.instructor_id == iid)) })

/-- Outcome of `DatabaseManager.assign_instructor_to_course`.  The source
returns a bare `bool`; its three `False` paths are distinguished by the
message printed just before each `return False`, which the constructors
mirror (`assigned` is the lone `True` path). -/
inductive AssignOutcome where
  | alreadyAssignedElsewhere
  | courseAlreadyHasInstructor
  | assigned
  | noSuchCourse
deriving Repr, DecidableEq

/-- The `bool` the Python method actually returns. -/
def AssignOutcome.toBool : AssignOutcome → Bool
  | .assigned => true
  | _ => false

/-- `DatabaseManager.assign_instructor_to_course`: first query
`courses WHERE instructor_id = ? AND course_id != ?`, then
`courses WHERE course_id = ? AND instructor_id IS NOT NULL`; each non-empty
result aborts with `False` before any write, else the `UPDATE` runs and
`cursor.rowcount > 0` is returned. -/
def assign_instructor_to_course (db : DB) (iid cid : String) : AssignOutcome × DB :=
  if db.courses.any (fun c => c.instructor_id == some iid && !(c.course_id == cid)) then
    (.alreadyAssignedElsewhere, db)
  else if db.courses.any (fun c => c.course_id == cid && !(c.instructor_id == none)) then
    (.courseAlreadyHasInstructor, db)
  else
    (if hasCourse db cid then .assigned else .noSuchCourse,
     { db with courses := db.courses.map (fun c =>
         if c.course_id == cid then { c with instructor_id := some iid } else c) })

/-- `DatabaseManager.get_course_students`: join of `student_courses` rows of
the course with the `students` table. -/
def get_course_students (db : DB) (cid : String) : List StudentRow :=
  (db.regs.filter (fun p => p.2 == cid)).filterMap
    (fun p => db.students.find? (fun s => s.student_id == p.1))

end DBM

namespace Repo

/-- `utils.add_student`: `int(age)` with `except: age = 0`, then a plain
`INSERT` through `run`; `run` yields `None` (so `False` here) on a
primary-key conflict, a unique-email conflict, or the schema constraint
`CHECK(age >= 0)` of `database.py`. -/
def add_student (db : DB) (nm ageText em sid : String) : Bool × DB :=
  let age : Int := (pyIntOfString ageText).getD 0
  if hasStudent db sid || studentEmailUsed db em || age < 0 then (false, db)
  else (true, { db with students := db.students ++ [⟨sid, nm, age, em⟩] })

/-- `utils.update_student`: same age coercion, then
`UPDATE students SET name, age, email WHERE student_id = ?`.  A statement
matching zero rows still succeeds; a unique-email conflict with a different
row or a negative age makes `run` return `None`. -/
def update_student (db : DB) (sid nm ageText em : String) : Bool × DB :=
  let age : Int := (pyIntOfString ageText).getD 0
  if !(hasStudent db sid) then (true, db)
  else if db.students.any (fun s => !(s.student_id == sid) && s.email == em) || age < 0 then
    (false, db)
  else
    (true, { db with students := db.students.map (fun s =>
       if s.student_id == sid then { s with name := nm, age := age, email := em } else s) })

/-- `utils.get_student`: `SELECT * FROM students WHERE student_id = ?`. -/
def get_student (db : DB) (sid : String) : Option StudentRow :=
  db.students.find? (fun s => s.student_id == sid)

/-- `utils.register_student_to_course`: `INSERT OR IGNORE` through `run`
with foreign keys ON.  An existing pair is ignored before constraint
evaluation and the cursor still counts as success; otherwise an absent
student or course id is a foreign-key violation and `run` returns `None`. -/
def register_student_to_course (db : DB) (sid cid : String) : Bool × DB :=
  if hasReg db sid cid then (true, db)
  else if !(hasStudent db sid) || !(hasCourse db cid) then (false, db)
  else (true, { db with regs := db.regs ++ [(sid, cid)] })

/-- `utils.unregister_student_from_course`: `DELETE` of the pair; `run`
returns a cursor whether or not any row matched, so the helper returns
`True` unconditionally. -/
def unregister_student_from_course (db : DB) (sid cid : String) : Bool × DB :=
  (true, { db with regs := db.regs.filter (fun p => !(p == (sid, cid))) })

/-- `utils.assign_instructor_to_course`: an unconditional
`UPDATE courses SET instructor_id = ? WHERE course_id = ?` with no
already-assigned or already-has-instructor check.  Zero matched rows still
succeed; updating an existing row to an absent instructor id violates the
foreign key, making `run` return `None`. -/
def assign_instructor_to_course (db : DB) (iid cid : String) : Bool × DB :=
  if !(hasCourse db cid) then (true, db)
  else if !(hasInstructor db iid) then (false, db)
  else
    (true, { db with courses := db.courses.map (fun c =>
       if c.course_id == cid then { c with instructor_id := some iid } else c) })

/-- `utils.valid_age`: `int(x) >= 0`, `False` when `int` raises. -/
def valid_age (x : String) : Bool :=
  match pyIntOfString x with
  | some a => decide (0 ≤ a)
  | none => false

/-- `utils.student_email_exists` without excluded id:
`lower(email) = lower(?)`. -/
def student_email_exists (db : DB) (em : String) : Bool :=
  db.students.any (fun s => s.email.toLower == em.toLower)

end Repo

/-- Split a character list at its first `@`, if any. -/
def splitAtFirstAt : List Char → Option (List Char × List Char)
  | [] => none
  | c :: rest =>
      if c == '@' then some ([], rest)
      else
        match splitAtFirstAt rest with
        | some (a, b) => some (c :: a, b)
        | none => none

/-- `utils.valid_email`: `bool(re.match(r"^[^@\s]+@[^@\s]+\.[^@\s]+$", x))`
after `x = (x or "").strip()`.  A full match is one `@` splitting the string
into a non-empty whitespace-free local part and a remainder, itself
whitespace-free and `@`-free, holding a dot with at least one character on
each side. -/
def utils_valid_email (x : String) : Bool :=
  let cs := pyStripList x.toList
  match splitAtFirstAt cs with
  | none => false
  | some (a, r) =>
      !a.isEmpty && a.all (fun c => !pyIsSpace c)
      && !r.isEmpty && r.all (fun c => !(c == '@') && !pyIsSpace c)
      && ((r.drop 1).dropLast.contains '.')

/-- Character class `[a-zA-Z0-9._%+-]` of the local part in
`Person.valid_email`. -/
def localClassChar (c : Char) : Bool :=
  c.isAlpha || c.isDigit || c == '.' || c == '_' || c == '%' || c == '+' || c == '-'

/-- Character class `[a-zA-Z0-9.-]` of the domain part in
`Person.valid_email`. -/
def domainClassChar (c : Char) : Bool :=
  c.isAlpha || c.isDigit || c == '.' || c == '-'

/-- Full match of the tail `[a-zA-Z0-9.-]+\.[a-zA-Z]{2,}`: some dot splits
the list into a non-empty domain-class part and a trailing run of at least
two letters. -/
def domainTailMatch (r : List Char) : Bool :=
  (List.range r.length).any (fun i =>
    (r.getD i ' ') == '.' && decide (1 ≤ i) && decide (i + 3 ≤ r.length)
    && (r.take i).all domainClassChar
    && (r.drop (i + 1)).all Char.isAlpha)

/-- Full match of `[a-zA-Z0-9._%+-]+@[a-zA-Z0-9.-]+\.[a-zA-Z]{2,}`. -/
def classesEmailCore (cs : List Char) : Bool :=
  match splitAtFirstAt cs with
  | none => false
  | some (a, r) => !a.isEmpty && a.all localClassChar && domainTailMatch r

/-- `Person.valid_email` of `classes.py`:
`re.match` with an anchored pattern, where the `$` anchor also accepts one
trailing newline. -/
def classes_valid_email (email : String) : Bool :=
  let cs := email.toList
  classesEmailCore cs || (cs.getLast? == some '\n' && classesEmailCore cs.dropLast)

/-- `Person.valid_name`: non-empty after strip. -/
def classes_valid_name (nm : String) : Bool :=
  !(pyStripList nm.toList).isEmpty

/-- `Student.valid_student_id`: non-empty after strip. -/
def classes_valid_student_id (sid : String) : Bool :=
  !(pyStripList sid.toList).isEmpty

/-- The create handler of the PyQt student form (`PyQt.py`, `_create`): it
strips the text fields, runs `int` on the age text, constructs a `Student`
(whose validators raise on a bad name, negative age, bad email, or blank
id, landing in the except branch), and only then calls
`DatabaseManager.add_student`. -/
def pyqt_create_student (db : DB) (nameText ageText emailText idText : String) : Bool × DB :=
  match pyIntOfString ageText with
  | none => (false, db)
  | some age =>
      if !(classes_valid_name (pyStrip nameText)) then (false, db)
      else if age < 0 then (false, db)
      else if !(classes_valid_email (pyStrip emailText)) then (false, db)
      else if !(classes_valid_student_id (pyStrip idText)) then (false, db)
      else DBM.add_student db
        ⟨pyStrip (pyStrip idText), pyStrip (pyStrip nameText), age, pyStrip emailText⟩

/-- The create branch of `add_or_save_student` in `tkinter-ui.py`: strips
the four entries, requires name and id non-empty, checks `valid_age` and
`valid_email`, rejects a duplicate email via `student_email_exists`, and
only then calls `utils.add_student`. -/
def tk_add_student (db : DB) (nameText ageText emailText idText : String) : Bool × DB :=
  if (pyStrip nameText).isEmpty || (pyStrip idText).isEmpty then (false, db)
  else if !(Repo.valid_age (pyStrip ageText)) then (false, db)
  else if !(utils_valid_email (pyStrip emailText)) then (false, db)
  else if Repo.student_email_exists db (pyStrip emailText) then (false, db)
  else Repo.add_student db (pyStrip nameText) (pyStrip ageText) (pyStrip emailText)
         (pyStrip idText)

end School

namespace School

/- Helper lemmas shared by several claim theorems. -/

/-- A false `any` gives the predicate false on every member. -/
theorem any_eq_false_forall {α : Type} {l : List α} {p : α → Bool}
    (h : l.any p = false) : ∀ x ∈ l, p x = false := by
  intro x hx
  rcases Bool.eq_false_or_eq_true (p x) with h' | h'
  · exfalso
    have ht : l.any p = true := List.any_eq_true.mpr ⟨x, hx, h'⟩
    rw [h] at ht
    exact Bool.noConfusion ht
  · exact h'

/-- `find?` over an appended singleton when nothing earlier matches. -/
theorem find?_append_singleton {α : Type} (l : List α) (y : α) (p : α → Bool)
    (h : ∀ x ∈ l, p x = false) :
    (l ++ [y]).find? p = if p y then some y else none := by
  induction l with
  | nil => cases hpy : p y <;> simp [List.find?, hpy]
  | cons a t ih =>
      have ha : p a = false := h a (List.mem_cons_self a t)
      have ht := ih (fun x hx => h x (List.mem_cons_of_mem a hx))
      simp only [List.cons_append, List.find?, ha]
      exact ht

/-- A filter touching no member is the identity. -/
theorem filter_eq_self_of_none {α : Type} {l : List α} {p : α → Bool}
    (h : ∀ x ∈ l, p x = true) : l.filter p = l :=
  List.filter_eq_self.mpr h

end School

namespace School

/-- C1: in the store holding student S1 and course C1, the first enroll of
(S1, C1) succeeds and a repeat enroll leaves exactly one pair in the
relation; but while the utils repository reports success on both calls, the
DatabaseManager repeat call returns False (rowcount 0 after INSERT OR
IGNORE), contradicting its own docstring that the repeat is a non-failure. -/
theorem c1_enroll_twice_evaluation :
    (let db0 : DB := ⟨[⟨"S1", "Ann", 20, "ann@x.com"⟩], [], [⟨"C1", "Algo", none⟩], []⟩
     let r1 := DBM.register_student_in_course db0 "S1" "C1"
     let r2 := DBM.register_student_in_course r1.2 "S1" "C1"
     let u1 := Repo.register_student_to_course db0 "S1" "C1"
     let u2 := Repo.register_student_to_course u1.2 "S1" "C1"
     r1.1 = true ∧ r2.1 = false ∧ r2.2.regs = [("S1", "C1")]
       ∧ u1.1 = true ∧ u2.1 = true ∧ u2.2.regs = [("S1", "C1")]) := by
  decide

/-- C7 counterexample: on the empty store, DatabaseManager enroll of the
absent pair (S1, C1) reports success and inserts a dangling enrollment row,
because its connections never enable foreign keys; the claim says it fails
with NotFound and inserts nothing. -/
theorem c7_counterexample_dbm_dangling_insert :
    DBM.register_student_in_course ⟨[], [], [], []⟩ "S1" "C1"
      = (true, ⟨[], [], [], [("S1", "C1")]⟩) := by
  decide

/-- C7 amended: through the utils repository, whose connections enable
foreign keys, enrolling a pair that is not already present fails and leaves
the store unchanged whenever the student id or the course id is absent. -/
theorem c7_repo_enroll_absent_id_fails (db : DB) (sid cid : String)
    (hpair : hasReg db sid cid = false)
    (habs : hasStudent db sid = false ∨ hasCourse db cid = false) :
    Repo.register_student_to_course db sid cid = (false, db) := by
  unfold Repo.register_student_to_course
  rw [if_neg (by simp [hpair]), if_pos]
  rcases habs with h | h <;> simp [h]

/-- C7 witness: the amended theorem applied to the empty store. -/
theorem c7_repo_enroll_absent_id_fails_witness :
    Repo.register_student_to_course ⟨[], [], [], []⟩ "S1" "C1"
      = (false, ⟨[], [], [], []⟩) :=
  c7_repo_enroll_absent_id_fails ⟨[], [], [], []⟩ "S1" "C1" (by decide)
    (Or.inl (by decide))

/-- C8 counterexample: utils unenroll of a pair that is not in the relation
returns True (the cursor exists even though zero rows were deleted), which
is the plain success the claim rules out. -/
theorem c8_counterexample_utils_plain_success :
    Repo.unregister_student_from_course ⟨[], [], [], [("S1", "C2")]⟩ "S1" "C1"
      = (true, ⟨[], [], [], [("S1", "C2")]⟩) := by
  decide

/-- C8 amended: unenrolling a pair that is not in the relation leaves the
relation unchanged on both paths; the DatabaseManager reports failure
(rowcount 0 gives False) while the utils repository reports success. -/
theorem c8_unenroll_missing_pair (db : DB) (sid cid : String)
    (hpair : hasReg db sid cid = false) :
    DBM.unregister_student_from_course db sid cid = (false, db)
    ∧ Repo.unregister_student_from_course db sid cid = (true, db) := by
  have hall : ∀ p ∈ db.regs, (!(p == (sid, cid))) = true := by
    intro p hp
    have := any_eq_false_forall hpair p hp
    simp_all
  constructor
  · unfold DBM.unregister_student_from_course
    rw [if_neg (by simp [hpair])]
  · unfold Repo.unregister_student_from_course
    rw [filter_eq_self_of_none hall]

/-- C8 witness: the amended theorem applied to a store holding one other
pair. -/
theorem c8_unenroll_missing_pair_witness :
    DBM.unregister_student_from_course ⟨[], [], [], [("S1", "C2")]⟩ "S1" "C1"
        = (false, ⟨[], [], [], [("S1", "C2")]⟩)
    ∧ Repo.unregister_student_from_course ⟨[], [], [], [("S1", "C2")]⟩ "S1" "C1"
        = (true, ⟨[], [], [], [("S1", "C2")]⟩) :=
  c8_unenroll_missing_pair ⟨[], [], [], [("S1", "C2")]⟩ "S1" "C1" (by decide)

end School

namespace School

/-- C2 counterexample: with instructor I1 assigned to course C1, the
utils-layer assign of I1 to the distinct course C2 reports success and
overwrites the C2 instructor slot: it runs an unconditional UPDATE with no
already-assigned-elsewhere check, so the claim fails on that code path. -/
theorem c2_counterexample_utils_overwrites :
    Repo.assign_instructor_to_course
        ⟨[], [⟨"I1", "Bob", 40, "bob@x.com"⟩],
         [⟨"C1", "Algo", some "I1"⟩, ⟨"C2", "Databases", none⟩], []⟩ "I1" "C2"
      = (true,
         ⟨[], [⟨"I1", "Bob", 40, "bob@x.com"⟩],
          [⟨"C1", "Algo", some "I1"⟩, ⟨"C2", "Databases", some "I1"⟩], []⟩) := by
  decide

/-- C2 amended: on the DatabaseManager path, if some course row with id C1,
distinct from C2, holds instructor I in its slot, then assigning I to C2
takes the already-assigned-elsewhere branch (returning False before any
write) and the whole store, in particular both instructor slots, is left
unchanged. -/
theorem c2_assign_elsewhere_rejected (db : DB) (iid c1 c2 : String)
    (hne : c1 ≠ c2) (c : CourseRow) (hc : c ∈ db.courses)
    (hcid : c.course_id = c1) (hslot : c.instructor_id = some iid) :
    DBM.assign_instructor_to_course db iid c2
      = (DBM.AssignOutcome.alreadyAssignedElsewhere, db) := by
  unfold DBM.assign_instructor_to_course
  rw [if_pos]
  rw [List.any_eq_true]
  refine ⟨c, hc, ?_⟩
  simp [hslot, hcid, hne]

/-- C2 witness: the amended theorem at a concrete store where I1 teaches C1
and C2 is unassigned. -/
theorem c2_assign_elsewhere_rejected_witness :
    DBM.assign_instructor_to_course
        ⟨[], [⟨"I1", "Bob", 40, "bob@x.com"⟩],
         [⟨"C1", "Algo", some "I1"⟩, ⟨"C2", "Databases", none⟩], []⟩ "I1" "C2"
      = (DBM.AssignOutcome.alreadyAssignedElsewhere,
         ⟨[], [⟨"I1", "Bob", 40, "bob@x.com"⟩],
          [⟨"C1", "Algo", some "I1"⟩, ⟨"C2", "Databases", none⟩], []⟩) :=
  c2_assign_elsewhere_rejected _ "I1" "C1" "C2" (by decide)
    ⟨"C1", "Algo", some "I1"⟩ (by decide) rfl rfl

/-- C3 counterexample: with the C1 slot already holding I1, a repeat assign
of I1 to C1 does not report success: the IS NOT NULL check fires (the code
compares against any instructor, not a different one) and the method
returns False, though the state is indeed unchanged. -/
theorem c3_counterexample_repeat_assign_fails :
    DBM.assign_instructor_to_course
        ⟨[], [⟨"I1", "Bob", 40, "bob@x.com"⟩], [⟨"C1", "Algo", some "I1"⟩], []⟩
        "I1" "C1"
      = (DBM.AssignOutcome.courseAlreadyHasInstructor,
         ⟨[], [⟨"I1", "Bob", 40, "bob@x.com"⟩], [⟨"C1", "Algo", some "I1"⟩], []⟩)
    ∧ DBM.AssignOutcome.courseAlreadyHasInstructor.toBool = false := by
  decide

/-- C3 amended: if some course row with id C already holds I in its slot,
re-assigning I to C is rejected, not reported as success: the returned bool
is False (via the course-already-has-instructor check, or the
assigned-elsewhere check when I also appears on another course) and the
store is left unchanged. -/
theorem c3_assign_same_pair_rejected_unchanged (db : DB) (iid cid : String)
    (c : CourseRow) (hc : c ∈ db.courses) (hcid : c.course_id = cid)
    (hslot : c.instructor_id = some iid) :
    (DBM.assign_instructor_to_course db iid cid).1.toBool = false
    ∧ (DBM.assign_instructor_to_course db iid cid).2 = db := by
  unfold DBM.assign_instructor_to_course
  by_cases h1 :
      (db.courses.any fun c => c.instructor_id == some iid && !(c.course_id == cid)) = true
  · rw [if_pos h1]
    exact ⟨rfl, rfl⟩
  · rw [if_neg h1, if_pos]
    · exact ⟨rfl, rfl⟩
    · rw [List.any_eq_true]
      refine ⟨c, hc, ?_⟩
      simp [hcid, hslot]

/-- C3 witness: the amended theorem at the concrete store of the
counterexample. -/
theorem c3_assign_same_pair_witness :
    (DBM.assign_instructor_to_course
        ⟨[], [⟨"I1", "Bob", 40, "bob@x.com"⟩], [⟨"C1", "Algo", some "I1"⟩], []⟩
        "I1" "C1").1.toBool = false
    ∧ (DBM.assign_instructor_to_course
        ⟨[], [⟨"I1", "Bob", 40, "bob@x.com"⟩], [⟨"C1", "Algo", some "I1"⟩], []⟩
        "I1" "C1").2
      = ⟨[], [⟨"I1", "Bob", 40, "bob@x.com"⟩], [⟨"C1", "Algo", some "I1"⟩], []⟩ :=
  c3_assign_same_pair_rejected_unchanged _ "I1" "C1"
    ⟨"C1", "Algo", some "I1"⟩ (by decide) rfl rfl

/-- C4: when deleting a student succeeds, the single transaction has also
removed every enrollment pair carrying that student id: no pair with the id
remains, no course student list derived from the store still joins to the
id, and the student row itself is gone. -/
theorem c4_delete_student_cascade (db : DB) (sid : String)
    (hok : (DBM.delete_student db sid).1 = true) :
    (∀ p ∈ (DBM.delete_student db sid).2.regs, p.1 ≠ sid)
    ∧ (∀ cid : String, ∀ s ∈ DBM.get_course_students (DBM.delete_student db sid).2 cid,
        s.student_id ≠ sid)
    ∧ hasStudent (DBM.delete_student db sid).2 sid = false := by
  refine ⟨?_, ?_, ?_⟩
  · intro p hp
    unfold DBM.delete_student at hp
    rw [List.mem_filter] at hp
    intro he
    rw [he] at hp
    simp at hp
  · intro cid s hs
    unfold DBM.get_course_students at hs
    rcases List.mem_filterMap.mp hs with ⟨p, hp, hfind⟩
    have hmem := List.mem_of_find?_eq_some hfind
    unfold DBM.delete_student at hmem
    rw [List.mem_filter] at hmem
    intro he
    rw [he] at hmem
    simp at hmem
  · unfold DBM.delete_student hasStudent
    rw [Bool.eq_false_iff]
    intro hany
    rcases List.any_eq_true.mp hany with ⟨s, hsmem, hs⟩
    rw [List.mem_filter] at hsmem
    rcases hsmem with ⟨_, hneq⟩
    rw [hs] at hneq
    simp at hneq

/-- C4 witness: deleting S1 from a store where S1 and S2 share course C1 is
reported successful, leaves no pair with S1, and keeps no S1 row. -/
theorem c4_delete_student_cascade_witness :
    ((DBM.delete_student
        ⟨[⟨"S1", "Ann", 20, "ann@x.com"⟩, ⟨"S2", "Bea", 21, "bea@x.com"⟩], [],
         [⟨"C1", "Algo", none⟩], [("S1", "C1"), ("S2", "C1")]⟩ "S1").1 = true)
    ∧ (∀ p ∈ (DBM.delete_student
        ⟨[⟨"S1", "Ann", 20, "ann@x.com"⟩, ⟨"S2", "Bea", 21, "bea@x.com"⟩], [],
         [⟨"C1", "Algo", none⟩], [("S1", "C1"), ("S2", "C1")]⟩ "S1").2.regs, p.1 ≠ "S1")
    ∧ hasStudent (DBM.delete_student
        ⟨[⟨"S1", "Ann", 20, "ann@x.com"⟩, ⟨"S2", "Bea", 21, "bea@x.com"⟩], [],
         [⟨"C1", "Algo", none⟩], [("S1", "C1"), ("S2", "C1")]⟩ "S1").2 "S1" = false :=
  ⟨by decide,
   (c4_delete_student_cascade _ "S1" (by decide)).1,
   (c4_delete_student_cascade _ "S1" (by decide)).2.2⟩

/-- C5: deleting an instructor leaves the enrollment relation and the
student table untouched and preserves every course: the course id and name
sequences are unchanged, no surviving course references the deleted
instructor, a course that referenced it survives with its slot cleared, and
a course that did not reference it survives as-is. -/
theorem c5_delete_instructor_preserves_courses (db : DB) (iid : String) :
    ((DBM.delete_instructor db iid).2.regs = db.regs)
    ∧ ((DBM.delete_instructor db iid).2.students = db.students)
    ∧ ((DBM.delete_instructor db iid).2.courses.map (fun c => c.course_id)
        = db.courses.map (fun c => c.course_id))
    ∧ ((DBM.delete_instructor db iid).2.courses.map (fun c => c.course_name)
        = db.courses.map (fun c => c.course_name))
    ∧ (∀ c ∈ (DBM.delete_instructor db iid).2.courses, c.instructor_id ≠ some iid)
    ∧ (∀ c ∈ db.courses, c.instructor_id = some iid →
        ({ c with instructor_id := none } : CourseRow)
          ∈ (DBM.delete_instructor db iid).2.courses)
    ∧ (∀ c ∈ db.courses, c.instructor_id ≠ some iid →
        c ∈ (DBM.delete_instructor db iid).2.courses) := by
  unfold DBM.delete_instructor
  refine ⟨rfl, rfl, ?_, ?_, ?_, ?_, ?_⟩
  · rw [List.map_map]
    apply List.map_congr_left
    intro c hc
    simp only [Function.comp_apply]
    split <;> rfl
  · rw [List.map_map]
    apply List.map_congr_left
    intro c hc
    simp only [Function.comp_apply]
    split <;> rfl
  · intro c hc
    rcases List.mem_map.mp hc with ⟨a, ha, heq⟩
    by_cases h : a.instructor_id == some iid
    · rw [if_pos h] at heq
      rw [← heq]
      simp
    · rw [if_neg h] at heq
      rw [← heq]
      simpa using h
  · intro c hc hslot
    apply List.mem_map.mpr
    refine ⟨c, hc, ?_⟩
    rw [if_pos (by simp [hslot])]
  · intro c hc hslot
    apply List.mem_map.mpr
    refine ⟨c, hc, ?_⟩
    rw [if_neg (by simpa using hslot)]

/-- C5 witness: deleting I1 clears the C1 slot, keeps the unassigned C2
as-is, and leaves enrollments and students untouched. -/
theorem c5_delete_instructor_witness :
    ((DBM.delete_instructor
        ⟨[⟨"S1", "Ann", 20, "ann@x.com"⟩], [⟨"I1", "Bob", 40, "bob@x.com"⟩],
         [⟨"C1", "Algo", some "I1"⟩, ⟨"C2", "Databases", none⟩],
         [("S1", "C1")]⟩ "I1").2.regs = [("S1", "C1")])
    ∧ (⟨"C1", "Algo", none⟩ : CourseRow) ∈ (DBM.delete_instructor
        ⟨[⟨"S1", "Ann", 20, "ann@x.com"⟩], [⟨"I1", "Bob", 40, "bob@x.com"⟩],
         [⟨"C1", "Algo", some "I1"⟩, ⟨"C2", "Databases", none⟩],
         [("S1", "C1")]⟩ "I1").2.courses
    ∧ (⟨"C2", "Databases", none⟩ : CourseRow) ∈ (DBM.delete_instructor
        ⟨[⟨"S1", "Ann", 20, "ann@x.com"⟩], [⟨"I1", "Bob", 40, "bob@x.com"⟩],
         [⟨"C1", "Algo", some "I1"⟩, ⟨"C2", "Databases", none⟩],
         [("S1", "C1")]⟩ "I1").2.courses :=
  ⟨(c5_delete_instructor_preserves_courses _ "I1").1,
   (c5_delete_instructor_preserves_courses _ "I1").2.2.2.2.2.1
     ⟨"C1", "Algo", some "I1"⟩ (by decide) rfl,
   (c5_delete_instructor_preserves_courses _ "I1").2.2.2.2.2.2
     ⟨"C2", "Databases", none⟩ (by decide) (by decide)⟩

end School

namespace School

/-- Inserting a student with a fresh id and email through the repository
appends exactly the coerced row. -/
theorem add_student_fresh (db : DB) (nm ageText em sid : String) (a : Int)
    (hage : (pyIntOfString ageText).getD 0 = a) (ha : 0 ≤ a)
    (hid : hasStudent db sid = false) (hem : studentEmailUsed db em = false) :
    Repo.add_student db nm ageText em sid
      = (true, { db with students := db.students ++ [⟨sid, nm, a, em⟩] }) := by
  have hnl : ¬ a < 0 := not_lt.mpr ha
  simp only [Repo.add_student, hage, hid, hem, Bool.false_or, decide_eq_true_eq]
  rw [if_neg hnl]

/-- Looking a fresh id up after the append finds the appended row. -/
theorem find_fresh (l : List StudentRow) (row : StudentRow) (sid : String)
    (hall : ∀ s ∈ l, (s.student_id == sid) = false) (hrow : row.student_id = sid) :
    (l ++ [row]).find? (fun s => s.student_id == sid) = some row := by
  rw [find?_append_singleton _ _ _ hall]
  simp [hrow]

/-- C6 counterexample: the email "x@y.1" fails the required
local@domain.tld shape (the part after the dot is not two or more letters,
as the Person regex requires), yet the tkinter create flow accepts it: the
utils regex admits any non-space character after the dot, so on the empty
store the creation reports success and the student row is persisted. -/
theorem c6_counterexample_tk_persists_bad_tld :
    classes_valid_email "x@y.1" = false
    ∧ tk_add_student ⟨[], [], [], []⟩ "Ann" "20" "x@y.1" "S1"
        = (true, ⟨[⟨"S1", "Ann", 20, "x@y.1"⟩], [], [], []⟩) := by
  decide

/-- C6 amended: each GUI create flow rejects a bad email exactly when its
own validator does, reporting failure and leaving the store unchanged with
no row persisted: the tkinter flow when the utils regex rejects the email,
the PyQt flow when the Person regex (the spec shape: dot then 2 or more
letters) rejects it inside the Student constructor.  An email such as
"bad-email" fails both; an email such as "x@y.1" fails only the Person
regex, and the tkinter flow persists it. -/
theorem c6_per_flow_validator_rejection (db : DB)
    (nameText ageText emailText idText : String) :
    (utils_valid_email (pyStrip emailText) = false →
      tk_add_student db nameText ageText emailText idText = (false, db))
    ∧ (classes_valid_email (pyStrip emailText) = false →
      pyqt_create_student db nameText ageText emailText idText = (false, db)) := by
  constructor
  · intro hu
    unfold tk_add_student
    split_ifs with h1 h2 h3 h4
    · rfl
    · rfl
    · rfl
    · rfl
    · exfalso
      apply h3
      rw [hu]
      rfl
  · intro hc
    unfold pyqt_create_student
    cases hA : pyIntOfString ageText with
    | none => rfl
    | some age =>
        dsimp only
        split_ifs with h1 h2 h3 h4
        · rfl
        · rfl
        · rfl
        · rfl
        · exfalso
          apply h3
          rw [hc]
          rfl

/-- C6 witness: the amended theorem at the email "bad-email", which fails
both validators, on the empty store. -/
theorem c6_per_flow_validator_rejection_witness :
    tk_add_student ⟨[], [], [], []⟩ "Ann" "20" "bad-email" "S1"
        = (false, ⟨[], [], [], []⟩)
    ∧ pyqt_create_student ⟨[], [], [], []⟩ "Ann" "20" "bad-email" "S1"
        = (false, ⟨[], [], [], []⟩) :=
  ⟨(c6_per_flow_validator_rejection ⟨[], [], [], []⟩ "Ann" "20" "bad-email" "S1").1
     (by decide),
   (c6_per_flow_validator_rejection ⟨[], [], [], []⟩ "Ann" "20" "bad-email" "S1").2
     (by decide)⟩

/-- C9: a valid student creation (parsing non-negative age, fresh id, fresh
email) followed by an immediate read returns exactly the supplied field
values. -/
theorem c9_create_read_round_trip (db : DB) (nm ageText em sid : String) (a : Int)
    (hage : pyIntOfString ageText = some a) (ha : 0 ≤ a)
    (hid : hasStudent db sid = false) (hem : studentEmailUsed db em = false) :
    (Repo.add_student db nm ageText em sid).1 = true
    ∧ Repo.get_student (Repo.add_student db nm ageText em sid).2 sid
        = some ⟨sid, nm, a, em⟩ := by
  have hall : ∀ s ∈ db.students, (s.student_id == sid) = false :=
    any_eq_false_forall hid
  rw [add_student_fresh db nm ageText em sid a (by rw [hage]; rfl) ha hid hem]
  refine ⟨rfl, ?_⟩
  unfold Repo.get_student
  exact find_fresh _ _ _ hall rfl

/-- C9 witness: creating then reading S1 on the empty store. -/
theorem c9_create_read_round_trip_witness :
    (Repo.add_student ⟨[], [], [], []⟩ "Ann" "20" "ann@x.com" "S1").1 = true
    ∧ Repo.get_student (Repo.add_student ⟨[], [], [], []⟩ "Ann" "20" "ann@x.com" "S1").2 "S1"
        = some ⟨"S1", "Ann", 20, "ann@x.com"⟩ :=
  c9_create_read_round_trip ⟨[], [], [], []⟩ "Ann" "20" "ann@x.com" "S1" 20
    (by decide) (by decide) (by decide) (by decide)

/-- C10: an age input that does not parse as an integer fails valid_age,
yet the repository add_student coerces it to 0 and persists the row, and
update_student on a store holding the id (with no email collision) likewise
reports success and leaves every row carrying that id with age 0 and the
other supplied fields; neither operation consults valid_age. -/
theorem c10_unparsable_age_coerced (db : DB) (nm badAge em sid : String)
    (hparse : pyIntOfString badAge = none)
    (hid : hasStudent db sid = false) (hem : studentEmailUsed db em = false) :
    Repo.valid_age badAge = false
    ∧ (Repo.add_student db nm badAge em sid).1 = true
    ∧ Repo.get_student (Repo.add_student db nm badAge em sid).2 sid
        = some ⟨sid, nm, 0, em⟩
    ∧ (∀ db2 : DB, hasStudent db2 sid = true →
        (db2.students.any (fun s => !(s.student_id == sid) && s.email == em)) = false →
        (Repo.update_student db2 sid nm badAge em).1 = true
        ∧ ∀ s ∈ (Repo.update_student db2 sid nm badAge em).2.students,
            s.student_id = sid → s = ⟨sid, nm, 0, em⟩) := by
  have hall : ∀ s ∈ db.students, (s.student_id == sid) = false :=
    any_eq_false_forall hid
  have hadd := add_student_fresh db nm badAge em sid 0 (by rw [hparse]; rfl)
    le_rfl hid hem
  refine ⟨?_, ?_, ?_, ?_⟩
  · simp [Repo.valid_age, hparse]
  · rw [hadd]
  · rw [hadd]
    unfold Repo.get_student
    exact find_fresh _ _ _ hall rfl
  · intro db2 hpresent hnocol
    simp only [Repo.update_student, hparse, Option.getD_none]
    split_ifs with h1 h2
    · rw [hpresent] at h1
      exact absurd h1 (by simp)
    · rw [hnocol] at h2
      exact absurd h2 (by simp)
    · refine ⟨rfl, ?_⟩
      intro s hs hsid
      rcases List.mem_map.mp hs with ⟨b, hb, heq⟩
      rcases b with ⟨bid, bnm, bag, bem⟩
      by_cases hbe : (bid == sid) = true
      · have hbid : bid = sid := by simpa using hbe
        subst hbid
        rw [← heq]
        simp
      · exfalso
        rw [← heq] at hsid
        simp only [if_neg] at hsid
        apply hbe
        rw [if_neg (by simpa using hbe)] at hsid
        simpa using hsid

/-- C10 witness: the age text "twenty" on the empty store, then an update
of the created row with the same unparsable age text. -/
theorem c10_unparsable_age_coerced_witness :
    Repo.valid_age "twenty" = false
    ∧ (Repo.add_student ⟨[], [], [], []⟩ "Ann" "twenty" "ann@x.com" "S1").1 = true
    ∧ Repo.get_student (Repo.add_student ⟨[], [], [], []⟩ "Ann" "twenty" "ann@x.com" "S1").2 "S1"
        = some ⟨"S1", "Ann", 0, "ann@x.com"⟩
    ∧ (∀ db2 : DB, hasStudent db2 "S1" = true →
        (db2.students.any (fun s => !(s.student_id == "S1") && s.email == "ann@x.com")) = false →
        (Repo.update_student db2 "S1" "Ann" "twenty" "ann@x.com").1 = true
        ∧ ∀ s ∈ (Repo.update_student db2 "S1" "Ann" "twenty" "ann@x.com").2.students,
            s.student_id = "S1" → s = ⟨"S1", "Ann", 0, "ann@x.com"⟩) :=
  c10_unparsable_age_coerced ⟨[], [], [], []⟩ "Ann" "twenty" "ann@x.com" "S1"
    (by decide) (by decide) (by decide)

end School
